import Mathlib

/-!
Verification of the gesture Rock-Paper-Scissors(-Pencil) game (`src/main.py`).

The development shallowly embeds the three logic components of the program:

* `classify` — `GestureRecognizer._classify`, a decision over the five
  finger-extension booleans;
* `resolve_round` — `GestureRPSGame.resolve_round` over the `WIN_RULES`
  table (a dict read with `.get(move, set())`, modelled as a total function
  defaulting to the empty list);
* the debounce / round-lifecycle machine spread over
  `GestureRPSApp._update_video`, `._handle_gesture`, `._resolve_round`,
  `._release_lockout` and `._reset_game`, modelled as a `tick` function on
  an explicit `AppState`.

Timing: the source releases the lockout through a Tk `after(1800, ...)`
callback. The Tk event loop fires a due callback before it delivers any
event scheduled at a later time, so an observation processed at time `t`
sees the lockout already released whenever the release deadline `d`
satisfies `d ≤ t`. `tick` folds this ordering in: it first fires a due
release, then handles the frame, which is the observable behaviour of the
source's event loop. The pending timer is modelled by its deadline
(`pending_release : Option Nat`); `after_cancel` on reset clears it.
-/

/-- One frame's classification result (source: `@dataclass GestureResult`).
The confidence is modelled as a rational: the source only ever assigns the
float literals `0.0` and `1.0`, which rationals represent exactly. -/
structure GestureResult where
  name : String
  confidence : ℚ
deriving DecidableEq

/-- `GestureRecognizer._classify`: the five finger-extension booleans are
`landmarks.landmark[tip].y < landmarks.landmark[pip].y` for
thumb/index/middle/ring/pinky; the branch structure follows the source
line by line. -/
def classify (thumb index middle ring pinky : Bool) : String :=
  if !(thumb || index || middle || ring || pinky) then "rock"
  else if thumb && index && middle && ring && pinky then "paper"
  else if index && !(middle || ring || pinky) then "pencil"
  else if index && middle && !(ring || pinky) then "scissors"
  else "unknown"

/-- `GestureRecognizer.process`: if the hand-landmark model (an external
collaborator) reports no hand, return `("unknown", 0.0)`; otherwise
classify and set confidence `1.0` iff the gesture is not `"unknown"`.
A detected hand is modelled by its five finger-extension booleans, which
is all that `_classify` reads from the landmarks. -/
def process (hand : Option (Bool × Bool × Bool × Bool × Bool)) : GestureResult :=
  match hand with
  | none => ⟨"unknown", 0⟩
  | some (t, i, m, r, p) =>
      let gesture_name := classify t i m r p
      ⟨gesture_name, if gesture_name ≠ "unknown" then 1 else 0⟩

/-- `GestureRPSGame.MOVES`. -/
def MOVES : List String := ["rock", "paper", "scissors", "pencil"]

/-- `GestureRPSGame.WIN_RULES`, read through `.get(player_move, set())`:
a total function on strings, defaulting to the empty set for keys outside
the table. -/
def WIN_RULES (move : String) : List String :=
  if move = "rock" then ["scissors", "pencil"]
  else if move = "paper" then ["rock"]
  else if move = "scissors" then ["paper", "pencil"]
  else if move = "pencil" then ["paper"]
  else []

/-- The score dict `{"player": 0, "computer": 0, "ties": 0}`. -/
structure Score where
  player : Nat
  computer : Nat
  ties : Nat
deriving DecidableEq

/-- Which branch of `resolve_round` executed; the source returns a message
string per branch (tie / "You win! ..." / "I win! ..."), which this
abstracts. -/
inductive Outcome
  | Tie
  | PlayerWin
  | ComputerWin
deriving DecidableEq

/-- `GestureRPSGame.resolve_round`: equal moves tie; else the player wins
iff the computer's move is in `WIN_RULES.get(player_move, set())`; else
the computer wins. Each branch increments exactly the matching counter of
the mutable score, modelled by returning the updated score. -/
def resolve_round (score : Score) (player_move computer_move : String) :
    Outcome × Score :=
  if player_move = computer_move then
    (Outcome.Tie, { score with ties := score.ties + 1 })
  else if computer_move ∈ WIN_RULES player_move then
    (Outcome.PlayerWin, { score with player := score.player + 1 })
  else
    (Outcome.ComputerWin, { score with computer := score.computer + 1 })

/-- The mutable state of `GestureRPSApp` that the debounce machine touches:
`last_gesture`, `_gesture_frames`, `_lockout`, `_lockout_after_id`
(modelled by the deadline of the pending release callback) and the game's
score. `committed` is a ghost log of the moves passed to `_resolve_round`,
newest last, used to count committed rounds. -/
structure AppState where
  last_gesture : String
  gesture_frames : Nat
  lockout : Bool
  pending_release : Option Nat
  score : Score
  committed : List String
deriving DecidableEq

/-- The state `GestureRPSApp.__init__` sets up before the first frame. -/
def initialState : AppState :=
  { last_gesture := "unknown", gesture_frames := 0, lockout := false,
    pending_release := none, score := ⟨0, 0, 0⟩, committed := [] }

/-- Whether the pending `after(1800)` release callback is due at time `t`. -/
def releaseDue (pending : Option Nat) (t : Nat) : Bool :=
  match pending with
  | some d => decide (d ≤ t)
  | none => false

/-- The Tk event loop firing `_release_lockout` when its deadline has
passed: `self._lockout = False`. The fired timer is no longer pending
(the stale id left in `_lockout_after_id` only ever reaches a no-op
`after_cancel`). -/
def fire_due_release (s : AppState) (t : Nat) : AppState :=
  if releaseDue s.pending_release t then
    { s with lockout := false, pending_release := none }
  else s

/-- `GestureRPSApp._handle_gesture` at time `t`, with the computer's move
drawn for an eventual commit supplied as the oracle `computer_move`
(the source draws it inside `_resolve_round` via `random.choice`):
an `"unknown"` gesture resets the candidate and count; a matching gesture
increments the count, a different one restarts it at 1; on reaching 10 the
round is resolved, the state locks and a release is scheduled 1800 ms out. -/
def handle_gesture (s : AppState) (t : Nat) (gesture computer_move : String) :
    AppState :=
  if gesture = "unknown" then
    { s with last_gesture := "unknown", gesture_frames := 0 }
  else
    let s1 :=
      if gesture = s.last_gesture then
        { s with gesture_frames := s.gesture_frames + 1 }
      else
        { s with gesture_frames := 1, last_gesture := gesture }
    if 10 ≤ s1.gesture_frames then
      { s1 with
          lockout := true,
          score := (resolve_round s1.score gesture computer_move).2,
          committed := s1.committed ++ [gesture],
          gesture_frames := 0,
          last_gesture := "unknown",
          pending_release := some (t + 1800) }
    else s1

/-- One successful frame of `GestureRPSApp._update_video` at time `t`:
any due release callback has already fired (event-loop ordering), then
the frame's gesture is handled unless the lockout is still active. -/
def tick (s : AppState) (t : Nat) (gesture computer_move : String) : AppState :=
  let s1 := fire_due_release s t
  if s1.lockout then s1 else handle_gesture s1 t gesture computer_move

/-- `GestureRPSApp._reset_game`: cancel the pending release callback,
clear the lockout, candidate and count, and replace the game with a fresh
`GestureRPSGame` (score all zeros). The ghost commit log is kept. -/
def reset_game (s : AppState) : AppState :=
  { last_gesture := "unknown", gesture_frames := 0, lockout := false,
    pending_release := none, score := ⟨0, 0, 0⟩, committed := s.committed }

/-- Feed a sequence of frames all showing the same gesture `m`; each list
element supplies the frame's time and the computer-move oracle. -/
def feedSame (s : AppState) (m : String) : List (Nat × String) → AppState
  | [] => s
  | (t, cm) :: es => feedSame (tick s t m cm) m es

/-- The win relation exactly as the specification states it, for comparison
with the code's `WIN_RULES`-driven resolution. -/
def beats_spec (a b : String) : Bool :=
  (a == "rock" && (b == "scissors" || b == "pencil")) ||
  (a == "paper" && b == "rock") ||
  (a == "scissors" && (b == "paper" || b == "pencil")) ||
  (a == "pencil" && b == "paper")

/-- The classifier case table exactly as the claim states it (`pencil`
requires that ONLY the index is extended), for comparison with the code's
`classify`. -/
def classify_claimed (thumb index middle ring pinky : Bool) : String :=
  if !(thumb || index || middle || ring || pinky) then "rock"
  else if thumb && index && middle && ring && pinky then "paper"
  else if !thumb && index && !middle && !ring && !pinky then "pencil"
  else if index && middle && !(ring || pinky) then "scissors"
  else "unknown"

/-- C2: for every pair of moves from the closed four-move set, `resolve_round`
produces exactly the outcome the spec's win relation dictates: the player wins
iff the relation puts the player's move above the computer's, the computer wins
iff the reverse holds, and every uncovered pair — equal moves included — ties. -/
theorem C2_win_relation_exact (a b : String) (ha : a ∈ MOVES) (hb : b ∈ MOVES)
    (sc : Score) :
    (resolve_round sc a b).1 =
      (if beats_spec a b then Outcome.PlayerWin
       else if beats_spec b a then Outcome.ComputerWin
       else Outcome.Tie) := by
  fin_cases ha <;> fin_cases hb <;> rfl

theorem C2_win_relation_exact_witness :
    ("rock" : String) ∈ MOVES ∧ ("scissors" : String) ∈ MOVES ∧
    (resolve_round ⟨0, 0, 0⟩ "rock" "scissors").1 =
      (if beats_spec "rock" "scissors" then Outcome.PlayerWin
       else if beats_spec "scissors" "rock" then Outcome.ComputerWin
       else Outcome.Tie) :=
  ⟨by decide, by decide,
    C2_win_relation_exact "rock" "scissors" (by decide) (by decide) ⟨0, 0, 0⟩⟩

/-- C5: every call to `resolve_round` on a pair of moves produces exactly one
of the three outcomes, each matched with an increment of exactly its own
counter by 1 with the other two counters untouched, so the increments across
the three counters sum to 1. -/
theorem C5_one_outcome_one_increment (a b : String) (ha : a ∈ MOVES)
    (hb : b ∈ MOVES) (sc : Score) :
    (((resolve_round sc a b).1 = Outcome.Tie ∧
        (resolve_round sc a b).2 = { sc with ties := sc.ties + 1 }) ∨
     ((resolve_round sc a b).1 = Outcome.PlayerWin ∧
        (resolve_round sc a b).2 = { sc with player := sc.player + 1 }) ∨
     ((resolve_round sc a b).1 = Outcome.ComputerWin ∧
        (resolve_round sc a b).2 = { sc with computer := sc.computer + 1 })) ∧
    (resolve_round sc a b).2.player + (resolve_round sc a b).2.computer +
        (resolve_round sc a b).2.ties =
      sc.player + sc.computer + sc.ties + 1 := by
  unfold resolve_round
  split
  · exact ⟨Or.inl ⟨rfl, rfl⟩, by simp; omega⟩
  · split
    · exact ⟨Or.inr (Or.inl ⟨rfl, rfl⟩), by simp; omega⟩
    · exact ⟨Or.inr (Or.inr ⟨rfl, rfl⟩), by simp; omega⟩

theorem C5_one_outcome_one_increment_witness :
    ("paper" : String) ∈ MOVES ∧ ("rock" : String) ∈ MOVES ∧
    ((((resolve_round ⟨2, 3, 4⟩ "paper" "rock").1 = Outcome.Tie ∧
        (resolve_round ⟨2, 3, 4⟩ "paper" "rock").2 = ⟨2, 3, 5⟩) ∨
      ((resolve_round ⟨2, 3, 4⟩ "paper" "rock").1 = Outcome.PlayerWin ∧
        (resolve_round ⟨2, 3, 4⟩ "paper" "rock").2 = ⟨3, 3, 4⟩) ∨
      ((resolve_round ⟨2, 3, 4⟩ "paper" "rock").1 = Outcome.ComputerWin ∧
        (resolve_round ⟨2, 3, 4⟩ "paper" "rock").2 = ⟨2, 4, 4⟩)) ∧
     (resolve_round ⟨2, 3, 4⟩ "paper" "rock").2.player +
        (resolve_round ⟨2, 3, 4⟩ "paper" "rock").2.computer +
        (resolve_round ⟨2, 3, 4⟩ "paper" "rock").2.ties = 2 + 3 + 4 + 1) :=
  ⟨by decide, by decide,
    C5_one_outcome_one_increment "paper" "rock" (by decide) (by decide) ⟨2, 3, 4⟩⟩

/-- C6: for every move of the closed set, resolving it against itself yields a
tie and increments only the tie counter. -/
theorem C6_self_play_ties (m : String) (hm : m ∈ MOVES) (sc : Score) :
    (resolve_round sc m m).1 = Outcome.Tie ∧
    (resolve_round sc m m).2 =
      { player := sc.player, computer := sc.computer, ties := sc.ties + 1 } := by
  unfold resolve_round
  simp

theorem C6_self_play_ties_witness :
    ("pencil" : String) ∈ MOVES ∧
    ((resolve_round ⟨5, 6, 7⟩ "pencil" "pencil").1 = Outcome.Tie ∧
     (resolve_round ⟨5, 6, 7⟩ "pencil" "pencil").2 =
       { player := 5, computer := 6, ties := 7 + 1 }) :=
  ⟨by decide, C6_self_play_ties "pencil" (by decide) ⟨5, 6, 7⟩⟩

/-- C10: `resolve_round` is total on strings; for a player move outside the
four-move set and any different computer move, the `WIN_RULES` lookup defaults
to the empty set, so the computer wins and only the computer counter grows. -/
theorem C10_unknown_move_computer_wins (a b : String) (ha : a ∉ MOVES)
    (hab : a ≠ b) (sc : Score) :
    (resolve_round sc a b).1 = Outcome.ComputerWin ∧
    (resolve_round sc a b).2 =
      { player := sc.player, computer := sc.computer + 1, ties := sc.ties } := by
  simp only [MOVES, List.mem_cons, List.not_mem_nil, or_false, not_or] at ha
  obtain ⟨h1, h2, h3, h4⟩ := ha
  unfold resolve_round WIN_RULES
  simp [h1, h2, h3, h4, hab]

theorem C10_unknown_move_computer_wins_witness :
    ("spock" : String) ∉ MOVES ∧ ("spock" : String) ≠ "rock" ∧
    ((resolve_round ⟨1, 1, 1⟩ "spock" "rock").1 = Outcome.ComputerWin ∧
     (resolve_round ⟨1, 1, 1⟩ "spock" "rock").2 =
       { player := 1, computer := 1 + 1, ties := 1 }) :=
  ⟨by decide, by decide,
    C10_unknown_move_computer_wins "spock" "rock" (by decide) (by decide) ⟨1, 1, 1⟩⟩

/-- C8 fails on the code: with the thumb and index extended and the other
three fingers not, `classify` returns `"pencil"` while the claim's table
(`pencil` only when ONLY the index is extended) returns `"unknown"`. -/
theorem C8_counterexample_thumb_and_index :
    classify true true false false false = "pencil" ∧
    classify_claimed true true false false false = "unknown" ∧
    classify true true false false false ≠
      classify_claimed true true false false false := by
  refine ⟨by decide, by decide, by decide⟩

/-- C8 amended: the code's table ignores the thumb in the pencil test (as it
already does in the scissors test): rock when none of the five fingers are
extended; paper when all five are; pencil when the index is extended and
middle, ring and pinky are not, the thumb being free; scissors when index and
middle are extended and ring and pinky are not; unknown otherwise. -/
theorem C8_amended_classifier_table (thumb index middle ring pinky : Bool) :
    classify thumb index middle ring pinky =
      if !thumb && !index && !middle && !ring && !pinky then "rock"
      else if thumb && index && middle && ring && pinky then "paper"
      else if index && !middle && !ring && !pinky then "pencil"
      else if index && middle && !ring && !pinky then "scissors"
      else "unknown" := by
  cases thumb <;> cases index <;> cases middle <;> cases ring <;> cases pinky <;>
    rfl

/-- C9: every `process` result carries a confidence that is exactly 0 or
exactly 1, and it is 1 precisely when the gesture name is not `"unknown"`. -/
theorem C9_confidence_is_binary (hand : Option (Bool × Bool × Bool × Bool × Bool)) :
    ((process hand).confidence = 0 ∨ (process hand).confidence = 1) ∧
    ((process hand).confidence = 1 ↔ (process hand).name ≠ "unknown") := by
  cases hand with
  | none => simp [process]
  | some h5 =>
    obtain ⟨t, i, m, r, p⟩ := h5
    by_cases h : classify t i m r p = "unknown" <;> simp [process, h]

lemma tick_no_pending (s : AppState) (t : Nat) (g cm : String)
    (hl : s.lockout = false) (hp : s.pending_release = none) :
    tick s t g cm = handle_gesture s t g cm := by
  simp [tick, fire_due_release, releaseDue, hp, hl]

lemma feedSame_accum (m : String) (hm : m ≠ "unknown") (es : List (Nat × String)) :
    ∀ (gf : Nat) (sc : Score) (co : List String), 1 ≤ gf → gf + es.length ≤ 9 →
      feedSame (AppState.mk m gf false none sc co) m es =
        AppState.mk m (gf + es.length) false none sc co := by
  induction es with
  | nil => intro gf sc co h1 h9; simp [feedSame]
  | cons e es ih =>
      intro gf sc co h1 h9
      obtain ⟨t, cm⟩ := e
      simp only [List.length_cons] at h9
      have h10 : ¬ (10 ≤ gf + 1) := by omega
      have htick : tick (AppState.mk m gf false none sc co) t m cm =
          AppState.mk m (gf + 1) false none sc co := by
        rw [tick_no_pending _ _ _ _ rfl rfl]
        simp [handle_gesture, hm, h10]
      rw [feedSame, htick, ih (gf + 1) sc co (by omega) (by omega)]
      simp only [List.length_cons]
      congr 1
      omega

lemma feedSame_append (s : AppState) (m : String) (as bs : List (Nat × String)) :
    feedSame s m (as ++ bs) = feedSame (feedSame s m as) m bs := by
  induction as generalizing s with
  | nil => simp [feedSame]
  | cons a as ih =>
      obtain ⟨t, cm⟩ := a
      rw [List.cons_append, feedSame, feedSame, ih]

lemma tick_from_zero (m : String) (hm : m ≠ "unknown") (lg : String) (sc : Score)
    (co : List String) (t : Nat) (cm : String) :
    tick (AppState.mk lg 0 false none sc co) t m cm =
      AppState.mk m 1 false none sc co := by
  rw [tick_no_pending _ _ _ _ rfl rfl]
  by_cases hc : m = lg
  · subst hc
    simp [handle_gesture, hm]
  · simp [handle_gesture, hm, hc]

/-- C1: from an idle, unlocked state (count 0), nine frames of one recognized
gesture followed by an `"unknown"` frame commit no round and leave the
candidate cleared with count 0, while ten frames of that gesture commit
exactly one round with that gesture. -/
theorem C1_commit_threshold (m : String) (hm : m ≠ "unknown")
    (lg : String) (sc : Score) (co : List String)
    (es : List (Nat × String)) (h9 : es.length = 9)
    (tu : Nat) (cmu : String) (e10 : Nat × String) :
    ((tick (feedSame (AppState.mk lg 0 false none sc co) m es) tu "unknown" cmu).committed
        = co ∧
     (tick (feedSame (AppState.mk lg 0 false none sc co) m es) tu "unknown" cmu).gesture_frames
        = 0 ∧
     (tick (feedSame (AppState.mk lg 0 false none sc co) m es) tu "unknown" cmu).last_gesture
        = "unknown") ∧
    (feedSame (AppState.mk lg 0 false none sc co) m (es ++ [e10])).committed
      = co ++ [m] := by
  rcases es with _ | ⟨⟨t1, cm1⟩, es'⟩
  · simp at h9
  · simp only [List.length_cons] at h9
    have h8 : es'.length = 8 := by omega
    have hnine :
        feedSame (AppState.mk lg 0 false none sc co) m ((t1, cm1) :: es') =
          AppState.mk m 9 false none sc co := by
      rw [feedSame, tick_from_zero m hm lg sc co t1 cm1,
        feedSame_accum m hm es' 1 sc co (by omega) (by omega), h8]
    constructor
    · rw [hnine, tick_no_pending _ _ _ _ rfl rfl]
      simp [handle_gesture]
    · obtain ⟨t10, cm10⟩ := e10
      rw [feedSame_append, hnine, feedSame, feedSame,
        tick_no_pending _ _ _ _ rfl rfl]
      simp [handle_gesture, hm]

theorem C1_commit_threshold_witness :
    ("rock" : String) ≠ "unknown" ∧
    (List.replicate 9 ((0 : Nat), "paper")).length = 9 ∧
    (((tick (feedSame (AppState.mk "unknown" 0 false none ⟨0, 0, 0⟩ []) "rock"
          (List.replicate 9 (0, "paper"))) 7 "unknown" "paper").committed = [] ∧
      (tick (feedSame (AppState.mk "unknown" 0 false none ⟨0, 0, 0⟩ []) "rock"
          (List.replicate 9 (0, "paper"))) 7 "unknown" "paper").gesture_frames = 0 ∧
      (tick (feedSame (AppState.mk "unknown" 0 false none ⟨0, 0, 0⟩ []) "rock"
          (List.replicate 9 (0, "paper"))) 7 "unknown" "paper").last_gesture
        = "unknown") ∧
     (feedSame (AppState.mk "unknown" 0 false none ⟨0, 0, 0⟩ []) "rock"
        (List.replicate 9 (0, "paper") ++ [(9, "paper")])).committed
       = [] ++ ["rock"]) :=
  ⟨by decide, by decide,
    C1_commit_threshold "rock" (by decide) "unknown" ⟨0, 0, 0⟩ []
      (List.replicate 9 (0, "paper")) (by decide) 7 "paper" (9, "paper")⟩

/-- C3: while the lockout is active and the release deadline has not passed,
a frame changes nothing at all: the whole app state — candidate, count, score
and commit log included — is returned unchanged, whatever the frame shows. -/
theorem C3_lockout_ignores_frames (s : AppState) (t : Nat) (g cm : String)
    (d : Nat) (hl : s.lockout = true) (hp : s.pending_release = some d)
    (ht : t < d) :
    tick s t g cm = s := by
  have hnotdue : releaseDue s.pending_release t = false := by
    rw [hp]
    simp only [releaseDue, decide_eq_false_iff_not]
    omega
  simp [tick, fire_due_release, hnotdue, hl]

theorem C3_lockout_ignores_frames_witness :
    (AppState.mk "unknown" 0 true (some 1800) ⟨1, 0, 0⟩ ["rock"]).lockout = true ∧
    (AppState.mk "unknown" 0 true (some 1800) ⟨1, 0, 0⟩ ["rock"]).pending_release
      = some 1800 ∧
    (33 : Nat) < 1800 ∧
    tick (AppState.mk "unknown" 0 true (some 1800) ⟨1, 0, 0⟩ ["rock"]) 33 "paper" "rock"
      = AppState.mk "unknown" 0 true (some 1800) ⟨1, 0, 0⟩ ["rock"] :=
  ⟨rfl, rfl, by decide,
    C3_lockout_ignores_frames _ 33 "paper" "rock" 1800 rfl rfl (by decide)⟩

/-- C4: a frame arriving at or after the release deadline is not dropped: the
due release fires first (lockout cleared, no release pending), and the very
same frame is then processed by the unknown/accumulate rules of
`_handle_gesture` in the same step. -/
theorem C4_release_then_process (s : AppState) (t : Nat) (g cm : String)
    (d : Nat) (hl : s.lockout = true) (hp : s.pending_release = some d)
    (ht : d ≤ t) :
    tick s t g cm =
      handle_gesture { s with lockout := false, pending_release := none } t g cm := by
  have hdue : releaseDue s.pending_release t = true := by
    rw [hp]
    simp [releaseDue, ht]
  simp [tick, fire_due_release, hdue]

theorem C4_release_then_process_witness :
    (AppState.mk "unknown" 0 true (some 1800) ⟨1, 0, 0⟩ ["rock"]).lockout = true ∧
    (AppState.mk "unknown" 0 true (some 1800) ⟨1, 0, 0⟩ ["rock"]).pending_release
      = some 1800 ∧
    (1800 : Nat) ≤ 1803 ∧
    tick (AppState.mk "unknown" 0 true (some 1800) ⟨1, 0, 0⟩ ["rock"]) 1803 "paper" "rock"
      = handle_gesture
          (AppState.mk "unknown" 0 false none ⟨1, 0, 0⟩ ["rock"]) 1803 "paper" "rock" :=
  ⟨rfl, rfl, by decide,
    C4_release_then_process _ 1803 "paper" "rock" 1800 rfl rfl (by decide)⟩

/-- C7: `_reset_game` from any state clears the lockout, the candidate and the
count, cancels the pending release (so the next frame is processed directly,
with no previously scheduled release left to fire), and zeroes all three score
counters. -/
theorem C7_reset_restores_idle (s : AppState) :
    (reset_game s).lockout = false ∧
    (reset_game s).gesture_frames = 0 ∧
    (reset_game s).last_gesture = "unknown" ∧
    (reset_game s).pending_release = none ∧
    (reset_game s).score = ⟨0, 0, 0⟩ ∧
    ∀ (t : Nat) (g cm : String),
      tick (reset_game s) t g cm = handle_gesture (reset_game s) t g cm := by
  refine ⟨rfl, rfl, rfl, rfl, rfl, ?_⟩
  intro t g cm
  exact tick_no_pending _ t g cm rfl rfl
